import Mathlib

/-!
Shallow embedding of `src/main.rs` of the `rust-api-openai-answer` repository:
a warp HTTP gateway with a `/ping` liveness endpoint and an `/answer` endpoint
that forwards one chat-completion request to the OpenAI API under a timeout
and wraps the outcome in a uniform JSON envelope.

Modelling choices:
- `Temp` abstracts the `f32` temperature value: the program only passes it
  through unchanged, so any type works.
- `Resp` abstracts `CreateChatCompletionResponse`: the program treats the
  upstream response as opaque.
- The outside world is an oracle `Upstream Resp` giving the wall-clock time
  (in seconds) the single outbound call takes to complete and the value
  `client.chat().create(..)` resolves to if it completes.
- `get_response` additionally returns the trace of outbound calls issued
  (the list of upstream requests handed to `client.chat().create`), so that
  claims about the number of outbound calls are statable.
- Machine integers `u16`/`u64` are modelled as `Nat`: the program performs no
  arithmetic on them, so overflow cannot occur.
-/

/-- `async_openai::types::Role` (the subset of constructors used). -/
inductive Role where
  | system
  | user
  | assistant
  | function
deriving DecidableEq, Repr

/-- `struct ChatMessage { role: Role, content: String }` (main.rs lines 19-23). -/
structure ChatMessage where
  role : Role
  content : String
deriving DecidableEq, Repr

/-- `struct OpenAiRequest` (main.rs lines 25-33); `Temp` stands for `f32`. -/
structure OpenAiRequest (Temp : Type) where
  api_key : String
  model : String
  max_tokens : Nat
  temperature : Temp
  timeout : Option Nat
  messages : List ChatMessage
deriving DecidableEq

/-- `async_openai::types::FunctionCall` (opaque payload; never constructed here). -/
structure FunctionCall where
  fname : String
  arguments : String
deriving DecidableEq, Repr

/-- `async_openai::types::ChatCompletionRequestMessage`. -/
structure ChatCompletionRequestMessage where
  role : Role
  content : Option String
  name : Option String
  function_call : Option FunctionCall
deriving DecidableEq, Repr

/-- `async_openai::types::CreateChatCompletionRequest`, restricted to the fields
the program sets through the builder; `Temp` stands for `f32`. -/
structure CreateChatCompletionRequest (Temp : Type) where
  model : String
  messages : List ChatCompletionRequestMessage
  max_tokens : Option Nat
  temperature : Option Temp
deriving DecidableEq

/-- `struct ApiResponse` (main.rs lines 35-40); `Resp` stands for
`CreateChatCompletionResponse`. -/
structure ApiResponse (Resp : Type) where
  success : Bool
  openai_answer : Option Resp
  error : Option String
deriving DecidableEq

/-- `struct PingResponse { status: String }` (main.rs lines 14-17). -/
structure PingResponse where
  status : String
deriving DecidableEq, Repr

/-- `const DEFAULT_TIMEOUT: u64 = 120` (main.rs line 12). -/
def DEFAULT_TIMEOUT : Nat := 120

/-- `tokio::time::Duration::from_secs`; durations are measured in seconds. -/
def Duration.from_secs (s : Nat) : Nat := s

/-- Oracle for the single outbound network call: `time` is the wall-clock
duration (seconds) the call takes to complete, `result` is the value
`client.chat().create(request).await` resolves to if allowed to complete
(`Except.error` carries the `OpenAIError` rendered by its `Display`). -/
structure Upstream (Resp : Type) where
  time : Nat
  result : Except String Resp

/-- `tokio::time::error::Elapsed`. -/
inductive Elapsed where
  | mk
deriving DecidableEq, Repr

/-- `tokio::time::timeout(duration, task).await`: the task's value if it
completes within `duration`, otherwise `Elapsed`. -/
def tokio_timeout (duration : Nat) (u : Upstream Resp) :
    Except Elapsed (Except String Resp) :=
  if u.time ≤ duration then Except.ok u.result else Except.error Elapsed.mk

/-- The `Box<dyn Error>` values `get_response` can return, tagged by origin. -/
inductive GatewayError where
  /-- a `&str` turned into a boxed error by `.into()` (main.rs line 54) -/
  | msg (s : String)
  /-- `tokio::time::error::Elapsed` propagated by `?` (main.rs line 77) -/
  | elapsed
  /-- an `OpenAIError` boxed by `.into()` (main.rs lines 72 and 83),
      carrying its `Display` rendering -/
  | openai (s : String)
deriving DecidableEq, Repr

/-- `Error::to_string()` on the boxed error; `Elapsed` displays as
"deadline has elapsed". -/
def GatewayError.to_string : GatewayError → String
  | .msg s => s
  | .elapsed => "deadline has elapsed"
  | .openai s => s

/-- `warp::Rejection` (opaque; the program never inspects one). -/
inductive Rejection where
  | reject
deriving DecidableEq, Repr

/-- `warp::reply::json(&body)`: an HTTP 200 reply carrying a JSON body. -/
structure JsonReply (α : Type) where
  status_code : Nat
  body : α
deriving DecidableEq

def reply_json (a : α) : JsonReply α := { status_code := 200, body := a }

/-- `match request.timeout { Some(x) => x, _ => DEFAULT_TIMEOUT }`
(main.rs lines 43-46). -/
def resolved_timeout (request : OpenAiRequest Temp) : Nat :=
  match request.timeout with
  | some x => x
  | _ => DEFAULT_TIMEOUT

/-- The closure at main.rs lines 59-64: translate one incoming message. -/
def convert_message (m : ChatMessage) : ChatCompletionRequestMessage :=
  { role := m.role
    content := some m.content
    name := none
    function_call := none }

/-- `CreateChatCompletionRequestArgs::default().max_tokens(..).model(..)
.temperature(..).messages(..).build()` (main.rs lines 67-72). The builder
fails only when a required field was never set; here every field is set,
so it always succeeds. -/
def CreateChatCompletionRequestArgs.build (max_tokens : Nat) (model : String)
    (temperature : Temp) (messages : List ChatCompletionRequestMessage) :
    Except String (CreateChatCompletionRequest Temp) :=
  Except.ok
    { model := model
      messages := messages
      max_tokens := some max_tokens
      temperature := some temperature }

/-- `async fn get_response` (main.rs lines 42-85). Returns the result
together with the trace of outbound calls issued. -/
def get_response (request : OpenAiRequest Temp) (net : Upstream Resp) :
    Except GatewayError Resp × List (CreateChatCompletionRequest Temp) :=
  let req_timeout := resolved_timeout request
  let duration := Duration.from_secs req_timeout
  if request.messages.isEmpty then
    (Except.error (GatewayError.msg "No response from GPT-3.5 Turbo"), [])
  else
    let converted_messages := request.messages.map convert_message
    match CreateChatCompletionRequestArgs.build request.max_tokens
        request.model request.temperature converted_messages with
    | Except.error e => (Except.error (GatewayError.openai e), [])
    | Except.ok req =>
      match tokio_timeout duration net with
      | Except.error _ => (Except.error GatewayError.elapsed, [req])
      | Except.ok (Except.ok x) => (Except.ok x, [req])
      | Except.ok (Except.error e) => (Except.error (GatewayError.openai e), [req])

/-- `async fn ping_handler` (main.rs lines 87-92). -/
def ping_handler : Except Rejection (JsonReply PingResponse) :=
  Except.ok (reply_json { status := "ok" })

/-- `async fn answer_handler` (main.rs lines 94-107). Returns the reply
together with the trace of outbound calls issued. -/
def answer_handler (request : OpenAiRequest Temp) (net : Upstream Resp) :
    Except Rejection (JsonReply (ApiResponse Resp)) ×
      List (CreateChatCompletionRequest Temp) :=
  let r := get_response request net
  let response : ApiResponse Resp :=
    match r.1 with
    | Except.ok answer =>
      { success := true, openai_answer := some answer, error := none }
    | Except.error e =>
      { success := false, openai_answer := none, error := some e.to_string }
  (Except.ok (reply_json response), r.2)

/-- HTTP methods distinguished by the routing in `main`. -/
inductive Method where
  | get
  | post
deriving DecidableEq, Repr

/-- An inbound HTTP request as seen by the warp filters: method, first path
segment, and the JSON body if it deserializes to an `OpenAiRequest`
(`none` models a missing or malformed body). -/
structure HttpRequest (Temp : Type) where
  method : Method
  path_head : String
  body : Option (OpenAiRequest Temp)

/-- A reply produced by one of the two routes. -/
inductive ServedReply (Resp : Type) where
  | ping (r : JsonReply PingResponse)
  | answer (r : JsonReply (ApiResponse Resp))

/-- `warp::path("answer").and(warp::post()).and(warp::body::json())
.and_then(answer_handler)` (main.rs lines 118-121): `none` is a rejection. -/
def answer_route (req : HttpRequest Temp) (net : Upstream Resp) :
    Option (ServedReply Resp × List (CreateChatCompletionRequest Temp)) :=
  if req.path_head = "answer" ∧ req.method = Method.post then
    match req.body with
    | none => none
    | some oreq =>
      match answer_handler oreq net with
      | (Except.ok jr, calls) => some (ServedReply.answer jr, calls)
      | (Except.error _, _) => none
  else none

/-- `warp::path("ping").and(warp::get()).and_then(ping_handler)`
(main.rs lines 114-116). -/
def ping_route (Resp : Type) (req : HttpRequest Temp) :
    Option (ServedReply Resp) :=
  if req.path_head = "ping" ∧ req.method = Method.get then
    match ping_handler with
    | Except.ok jr => some (ServedReply.ping jr)
    | Except.error _ => none
  else none

/-- `answer_route.or(ping_route)` (main.rs line 123): the ping route is tried
when the answer route rejects; an overall `none` is an unmatched request,
answered by warp itself. -/
def routes (req : HttpRequest Temp) (net : Upstream Resp) :
    Option (ServedReply Resp × List (CreateChatCompletionRequest Temp)) :=
  match answer_route req net with
  | some x => some x
  | none =>
    match ping_route Resp req with
    | some r => some (r, [])
    | none => none

/-- serde-json escaping of one character inside a JSON string literal
(only the characters relevant to this program's payloads). -/
def escape_json_char (c : Char) : String :=
  if c = '\\' then "\\\\"
  else if c = '"' then "\\\""
  else String.singleton c

/-- serde-json rendering of a Rust `String`. -/
def escape_json (s : String) : String :=
  String.join (s.toList.map escape_json_char)

/-- serde serialization of `PingResponse`, as produced by
`warp::reply::json`. -/
def PingResponse.to_json (p : PingResponse) : String :=
  "\x7b\"status\":\"" ++ escape_json p.status ++ "\"\x7d"

/-! Concrete sample inputs used by the witness theorems. -/

/-- A request with an empty messages list. -/
def emptyReq : OpenAiRequest Unit :=
  { api_key := "key", model := "gpt-3.5-turbo", max_tokens := 10,
    temperature := (), timeout := none, messages := [] }

/-- A request with one user message and no timeout field. -/
def oneMsgReq : OpenAiRequest Unit :=
  { api_key := "key", model := "gpt-3.5-turbo", max_tokens := 10,
    temperature := (), timeout := none,
    messages := [{ role := Role.user, content := "hello" }] }

/-- The same request with an explicit timeout of 0 seconds. -/
def zeroTimeoutReq : OpenAiRequest Unit :=
  { oneMsgReq with timeout := some 0 }

/-- An upstream call that completes in 1 second. -/
def fastNet : Upstream Unit := { time := 1, result := Except.ok () }

/-- An upstream call that takes 121 seconds, past the 120-second default. -/
def slowNet : Upstream Unit := { time := 121, result := Except.ok () }

/-- A GET request to `/ping`. -/
def pingReq : HttpRequest Unit :=
  { method := Method.get, path_head := "ping", body := none }

/-! Helper lemmas characterizing `get_response` on the two validation
branches. -/

lemma get_response_nil (request : OpenAiRequest Temp) (net : Upstream Resp)
    (h : request.messages = []) :
    get_response request net =
      (Except.error (GatewayError.msg "No response from GPT-3.5 Turbo"), []) := by
  simp [get_response, h]

lemma get_response_eq_of_cons (m : ChatMessage) (ms : List ChatMessage)
    (request : OpenAiRequest Temp) (net : Upstream Resp)
    (hm : request.messages = m :: ms) :
    get_response request net =
      (match tokio_timeout (Duration.from_secs (resolved_timeout request)) net with
       | Except.error _ => Except.error GatewayError.elapsed
       | Except.ok (Except.ok x) => Except.ok x
       | Except.ok (Except.error e) => Except.error (GatewayError.openai e),
       [{ model := request.model,
          messages := (m :: ms).map convert_message,
          max_tokens := some request.max_tokens,
          temperature := some request.temperature }]) := by
  rcases ht : tokio_timeout (Duration.from_secs (resolved_timeout request)) net
    with e | r
  · simp [get_response, hm, CreateChatCompletionRequestArgs.build, ht]
  · rcases r with s | x <;>
      simp [get_response, hm, CreateChatCompletionRequestArgs.build, ht]

lemma answer_handler_elapsed (request : OpenAiRequest Temp)
    (net : Upstream Resp) (hne : request.messages ≠ [])
    (hto : resolved_timeout request < net.time) :
    (get_response request net).1 = Except.error GatewayError.elapsed ∧
    (answer_handler request net).1 = Except.ok (reply_json
      { success := false, openai_answer := none,
        error := some GatewayError.elapsed.to_string }) := by
  rcases hm : request.messages with _ | ⟨m, ms⟩
  · exact absurd hm hne
  · have hle : ¬ net.time ≤ Duration.from_secs (resolved_timeout request) :=
      Nat.not_le.mpr hto
    have h1 : (get_response request net).1 = Except.error GatewayError.elapsed := by
      rw [get_response_eq_of_cons m ms request net hm]
      simp [tokio_timeout, hle]
    exact ⟨h1, by simp [answer_handler, h1]⟩

/-- C1: for every request whose messages list is empty, `answer_handler`
returns an envelope with `success = false` and a non-empty error string, and
issues zero outbound calls to the upstream provider. -/
theorem c1_empty_messages_rejected (Temp Resp : Type)
    (request : OpenAiRequest Temp) (net : Upstream Resp)
    (h : request.messages = []) :
    (answer_handler request net).2 = [] ∧
    ∃ s : String, s ≠ "" ∧
      (answer_handler request net).1 = Except.ok (reply_json
        { success := false, openai_answer := none, error := some s }) := by
  have hg := get_response_nil request net h
  refine ⟨by simp [answer_handler, hg], "No response from GPT-3.5 Turbo",
    by decide, by simp [answer_handler, hg, GatewayError.to_string]⟩

/-- C1 witness: the concrete empty-messages request `emptyReq`. -/
theorem c1_empty_messages_rejected_witness :
    emptyReq.messages = [] ∧
    ((answer_handler emptyReq fastNet).2 = [] ∧
     ∃ s : String, s ≠ "" ∧
       (answer_handler emptyReq fastNet).1 = Except.ok (reply_json
         { success := false, openai_answer := none, error := some s })) :=
  ⟨rfl, c1_empty_messages_rejected Unit Unit emptyReq fastNet rfl⟩

/-- C2: for every request, the envelope populates exactly one of
`openai_answer` and `error`, selected by `success`. -/
theorem c2_envelope_exclusive (Temp Resp : Type)
    (request : OpenAiRequest Temp) (net : Upstream Resp) :
    ∃ resp : ApiResponse Resp,
      (answer_handler request net).1 = Except.ok (reply_json resp) ∧
      resp.openai_answer.isSome = resp.success ∧
      resp.error.isSome = !resp.success := by
  rcases h : (get_response request net).1 with e | a
  · exact ⟨{ success := false, openai_answer := none,
             error := some e.to_string },
      by simp [answer_handler, h], rfl, rfl⟩
  · exact ⟨{ success := true, openai_answer := some a, error := none },
      by simp [answer_handler, h], rfl, rfl⟩

/-- C2 witness: the concrete request `oneMsgReq` against `fastNet`. -/
theorem c2_envelope_exclusive_witness :
    ∃ resp : ApiResponse Unit,
      (answer_handler oneMsgReq fastNet).1 = Except.ok (reply_json resp) ∧
      resp.openai_answer.isSome = resp.success ∧
      resp.error.isSome = !resp.success :=
  c2_envelope_exclusive Unit Unit oneMsgReq fastNet

/-- C9: for every request with an empty messages list, the envelope's error
field is exactly the fixed string "No response from GPT-3.5 Turbo". -/
theorem c9_empty_messages_error_string (Temp Resp : Type)
    (request : OpenAiRequest Temp) (net : Upstream Resp)
    (h : request.messages = []) :
    (answer_handler request net).1 = Except.ok (reply_json
      { success := false, openai_answer := none,
        error := some "No response from GPT-3.5 Turbo" }) := by
  simp [answer_handler, get_response_nil request net h, GatewayError.to_string]

/-- C9 witness: the concrete empty-messages request `emptyReq`. -/
theorem c9_empty_messages_error_string_witness :
    emptyReq.messages = [] ∧
    (answer_handler emptyReq fastNet).1 = Except.ok (reply_json
      { success := false, openai_answer := none,
        error := some "No response from GPT-3.5 Turbo" }) :=
  ⟨rfl, c9_empty_messages_error_string Unit Unit emptyReq fastNet rfl⟩

/-- C3: the timeout bound applied to the outbound call is the caller-supplied
value when `timeout` is present and 120 seconds when it is omitted: the call
is cut off as elapsed exactly when it takes longer than `resolved_timeout`,
and `resolved_timeout` is the supplied value, or 120 by default. -/
theorem c3_timeout_resolution (Temp Resp : Type)
    (request : OpenAiRequest Temp) (net : Upstream Resp)
    (hne : request.messages ≠ []) :
    ((get_response request net).1 = Except.error GatewayError.elapsed ↔
      resolved_timeout request < net.time) ∧
    (∀ t, request.timeout = some t → resolved_timeout request = t) ∧
    (request.timeout = none → resolved_timeout request = 120) := by
  refine ⟨?_, fun t ht => by simp [resolved_timeout, ht],
    fun h0 => by simp [resolved_timeout, h0, DEFAULT_TIMEOUT]⟩
  rcases hm : request.messages with _ | ⟨m, ms⟩
  · exact absurd hm hne
  · rw [get_response_eq_of_cons m ms request net hm]
    by_cases hle : net.time ≤ resolved_timeout request
    · have ht : ¬ resolved_timeout request < net.time := Nat.not_lt.mpr hle
      rcases hr : net.result with s | x <;>
        simp [tokio_timeout, Duration.from_secs, hle, hr, ht]
    · simp [tokio_timeout, Duration.from_secs, hle, Nat.not_le.mp hle]

/-- C3 witness: `oneMsgReq` omits `timeout`, so the bound is 120 and the
121-second call `slowNet` is cut off. -/
theorem c3_timeout_resolution_witness :
    oneMsgReq.messages ≠ [] ∧
    (((get_response oneMsgReq slowNet).1 = Except.error GatewayError.elapsed ↔
        resolved_timeout oneMsgReq < slowNet.time) ∧
     (∀ t, oneMsgReq.timeout = some t → resolved_timeout oneMsgReq = t) ∧
     (oneMsgReq.timeout = none → resolved_timeout oneMsgReq = 120)) :=
  ⟨by decide, c3_timeout_resolution Unit Unit oneMsgReq slowNet (by decide)⟩

/-- C4: when the outbound call does not complete within the resolved timeout,
`answer_handler` returns an envelope with `success = false`, no result, and
the timeout error message "deadline has elapsed". -/
theorem c4_timeout_mapped_to_envelope (Temp Resp : Type)
    (request : OpenAiRequest Temp) (net : Upstream Resp)
    (hne : request.messages ≠ [])
    (hto : resolved_timeout request < net.time) :
    (answer_handler request net).1 = Except.ok (reply_json
      { success := false, openai_answer := none,
        error := some GatewayError.elapsed.to_string }) ∧
    GatewayError.elapsed.to_string = "deadline has elapsed" :=
  ⟨(answer_handler_elapsed request net hne hto).2, rfl⟩

/-- C4 witness: `oneMsgReq` (bound 120 seconds) against the 121-second call
`slowNet`. -/
theorem c4_timeout_mapped_to_envelope_witness :
    oneMsgReq.messages ≠ [] ∧ resolved_timeout oneMsgReq < slowNet.time ∧
    ((answer_handler oneMsgReq slowNet).1 = Except.ok (reply_json
        { success := false, openai_answer := none,
          error := some GatewayError.elapsed.to_string }) ∧
     GatewayError.elapsed.to_string = "deadline has elapsed") :=
  ⟨by decide, by decide,
    c4_timeout_mapped_to_envelope Unit Unit oneMsgReq slowNet
      (by decide) (by decide)⟩

/-- C10: a caller-supplied timeout of 0 is used unvalidated: the resolved
duration is 0 seconds, so any outbound call that takes positive time is
treated as timed out and the envelope has `success = false`. -/
theorem c10_zero_timeout_always_elapses (Temp Resp : Type)
    (request : OpenAiRequest Temp) (net : Upstream Resp)
    (h0 : request.timeout = some 0) (hne : request.messages ≠ [])
    (hpos : 0 < net.time) :
    resolved_timeout request = 0 ∧
    (get_response request net).1 = Except.error GatewayError.elapsed ∧
    (answer_handler request net).1 = Except.ok (reply_json
      { success := false, openai_answer := none,
        error := some GatewayError.elapsed.to_string }) := by
  have hres : resolved_timeout request = 0 := by simp [resolved_timeout, h0]
  have hto : resolved_timeout request < net.time := by rw [hres]; exact hpos
  exact ⟨hres, (answer_handler_elapsed request net hne hto).1,
    (answer_handler_elapsed request net hne hto).2⟩

/-- C10 witness: `zeroTimeoutReq` has `timeout = some 0`, and the 1-second
call `fastNet` is treated as timed out. -/
theorem c10_zero_timeout_always_elapses_witness :
    zeroTimeoutReq.timeout = some 0 ∧ zeroTimeoutReq.messages ≠ [] ∧
    0 < fastNet.time ∧
    (resolved_timeout zeroTimeoutReq = 0 ∧
     (get_response zeroTimeoutReq fastNet).1 =
       Except.error GatewayError.elapsed ∧
     (answer_handler zeroTimeoutReq fastNet).1 = Except.ok (reply_json
       { success := false, openai_answer := none,
         error := some GatewayError.elapsed.to_string })) :=
  ⟨rfl, by decide, by decide,
    c10_zero_timeout_always_elapses Unit Unit zeroTimeoutReq fastNet
      rfl (by decide) (by decide)⟩

/-- C5: every failure inside the gateway is caught and converted into the
JSON envelope returned with HTTP 200: `answer_handler` never rejects, and
whenever `get_response` returns any error it becomes a `success = false`
envelope carrying that error's message. -/
theorem c5_no_failure_escapes (Temp Resp : Type)
    (request : OpenAiRequest Temp) (net : Upstream Resp) :
    ∃ resp : ApiResponse Resp,
      (answer_handler request net).1 = Except.ok (reply_json resp) ∧
      (reply_json resp).status_code = 200 ∧
      ∀ e, (get_response request net).1 = Except.error e →
        resp = { success := false, openai_answer := none,
                 error := some e.to_string } := by
  rcases h : (get_response request net).1 with e | a
  · refine ⟨{ success := false, openai_answer := none,
              error := some e.to_string },
      by simp [answer_handler, h], rfl, ?_⟩
    intro e2 he2
    injection he2 with h3
    rw [h3]
  · refine ⟨{ success := true, openai_answer := some a, error := none },
      by simp [answer_handler, h], rfl, ?_⟩
    intro e2 he2
    exact absurd he2 (by simp)

/-- C5 witness: the concrete request `oneMsgReq` against the timing-out call
`slowNet`. -/
theorem c5_no_failure_escapes_witness :
    ∃ resp : ApiResponse Unit,
      (answer_handler oneMsgReq slowNet).1 = Except.ok (reply_json resp) ∧
      (reply_json resp).status_code = 200 ∧
      ∀ e, (get_response oneMsgReq slowNet).1 = Except.error e →
        resp = { success := false, openai_answer := none,
                 error := some e.to_string } :=
  c5_no_failure_escapes Unit Unit oneMsgReq slowNet

/-- C6: for every request with a non-empty message list, exactly one outbound
call to the upstream provider is made, whatever its outcome. -/
theorem c6_exactly_one_call (Temp Resp : Type)
    (request : OpenAiRequest Temp) (net : Upstream Resp)
    (hne : request.messages ≠ []) :
    (get_response request net).2.length = 1 := by
  rcases hm : request.messages with _ | ⟨m, ms⟩
  · exact absurd hm hne
  · rw [get_response_eq_of_cons m ms request net hm]
    rfl

/-- C6 witness: the concrete request `oneMsgReq` against `fastNet`. -/
theorem c6_exactly_one_call_witness :
    oneMsgReq.messages ≠ [] ∧ (get_response oneMsgReq fastNet).2.length = 1 :=
  ⟨by decide, c6_exactly_one_call Unit Unit oneMsgReq fastNet (by decide)⟩

/-- C7: for every request with a non-empty message list, the upstream request
sent has a message sequence of the same length, preserving role and content
at every position, with `name` and `function_call` absent on every translated
message. -/
theorem c7_translation_preserves_messages (Temp Resp : Type)
    (request : OpenAiRequest Temp) (net : Upstream Resp)
    (hne : request.messages ≠ []) :
    ∃ ureq : CreateChatCompletionRequest Temp,
      (get_response request net).2 = [ureq] ∧
      ureq.messages.length = request.messages.length ∧
      ∀ i (hi : i < request.messages.length) (hj : i < ureq.messages.length),
        (ureq.messages.get ⟨i, hj⟩).role =
          (request.messages.get ⟨i, hi⟩).role ∧
        (ureq.messages.get ⟨i, hj⟩).content =
          some (request.messages.get ⟨i, hi⟩).content ∧
        (ureq.messages.get ⟨i, hj⟩).name = none ∧
        (ureq.messages.get ⟨i, hj⟩).function_call = none := by
  rcases hm : request.messages with _ | ⟨m, ms⟩
  · exact absurd hm hne
  · refine ⟨{ model := request.model,
              messages := (m :: ms).map convert_message,
              max_tokens := some request.max_tokens,
              temperature := some request.temperature }, ?_, ?_, ?_⟩
    · rw [get_response_eq_of_cons m ms request net hm]
    · simp
    · intro i hi hj
      simp only [List.get_eq_getElem, List.getElem_map, convert_message]
      exact ⟨trivial, trivial, trivial, trivial⟩

/-- C7 witness: the concrete one-message request `oneMsgReq`. -/
theorem c7_translation_preserves_messages_witness :
    oneMsgReq.messages ≠ [] ∧
    ∃ ureq : CreateChatCompletionRequest Unit,
      (get_response oneMsgReq fastNet).2 = [ureq] ∧
      ureq.messages.length = oneMsgReq.messages.length ∧
      ∀ i (hi : i < oneMsgReq.messages.length)
          (hj : i < ureq.messages.length),
        (ureq.messages.get ⟨i, hj⟩).role =
          (oneMsgReq.messages.get ⟨i, hi⟩).role ∧
        (ureq.messages.get ⟨i, hj⟩).content =
          some (oneMsgReq.messages.get ⟨i, hi⟩).content ∧
        (ureq.messages.get ⟨i, hj⟩).name = none ∧
        (ureq.messages.get ⟨i, hj⟩).function_call = none :=
  ⟨by decide,
    c7_translation_preserves_messages Unit Unit oneMsgReq fastNet (by decide)⟩

/-- C8: every GET request whose path is `/ping` is answered by `ping_handler`
with HTTP 200 and JSON body equal to the string rendering
of `PingResponse \x7b status := "ok" \x7d`, regardless of the request body or
any upstream state; `ping_handler` takes no input and never rejects. -/
theorem c8_ping_always_ok (Temp Resp : Type) (req : HttpRequest Temp)
    (net : Upstream Resp) (hm : req.method = Method.get)
    (hp : req.path_head = "ping") :
    routes req net =
      some (ServedReply.ping (reply_json { status := "ok" }), []) ∧
    ping_handler = Except.ok (reply_json { status := "ok" }) ∧
    (reply_json (α := PingResponse) { status := "ok" }).status_code = 200 ∧
    PingResponse.to_json { status := "ok" } = "\x7b\"status\":\"ok\"\x7d" := by
  refine ⟨?_, rfl, rfl, by decide⟩
  simp [routes, answer_route, ping_route, ping_handler, hm, hp]

/-- C8 witness: the concrete request `pingReq` against `fastNet`. -/
theorem c8_ping_always_ok_witness :
    pingReq.method = Method.get ∧ pingReq.path_head = "ping" ∧
    (routes pingReq fastNet =
       some (ServedReply.ping (reply_json { status := "ok" }), []) ∧
     ping_handler = Except.ok (reply_json { status := "ok" }) ∧
     (reply_json (α := PingResponse) { status := "ok" }).status_code = 200 ∧
     PingResponse.to_json { status := "ok" } = "\x7b\"status\":\"ok\"\x7d") :=
  ⟨rfl, rfl, c8_ping_always_ok Unit Unit pingReq fastNet rfl rfl⟩
